import Mathlib

/-!
Verification of the core logic of a dialysis health-tracking application:
the clinical threshold evaluator (fluid-removal and blood-pressure checks
from `components/DataEntry.tsx`), the dialysis-duration calculator
(`components/Profile` variant embedded in the same file), the medication
reminder scheduler (`App.tsx`), the toggle-taken mutation (`App.tsx`),
the notification permission gate (`components/Medications.tsx`) and the
AI-gateway error handling (`services/geminiService.ts`).

Conventions of the embedding:
* Numeric form fields pass through JavaScript `parseFloat` / `parseInt`;
  a parsed value is modelled as `Option ℚ` / `Option ℤ` / `Option ℕ`,
  with `none` standing for an absent or unparseable input (`NaN`).
  Arithmetic is exact (rationals), matching the spec's real-number reading.
* Dates are day-precision triples of integers; comparing a midnight start
  date against a later instant of the reference day reduces to
  lexicographic comparison of the date triples.
* The notification side effect is modelled by returning the list of
  notifications the tick constructs; the browser's permission state and
  the availability of the Notification API are explicit inputs.
* The asynchronous AI call is modelled by its outcome: `Except Unit String`
  is either a transport/API error or the text of the response (possibly
  empty, mirroring a missing `response.text`).
-/

namespace DialysisApp

/-- Substring occurrence on strings: `mentions needle hay` states that
`needle` occurs contiguously inside `hay`; used to state that a message
text cites a number. -/
def mentions (needle hay : String) : Prop :=
  needle.data <:+: hay.data

instance (needle hay : String) : Decidable (mentions needle hay) :=
  List.decidableInfix needle.data hay.data

/-- Fluid warning logic of `DataEntry.tsx` (`showFluidWarning`):
parse dry weight and fluid removal; when both parse and the dry weight is
positive, warn exactly when the ratio exceeds 0.05; otherwise no warning. -/
def showFluidWarning (dryWeight fluidRemoval : Option ℚ) : Bool :=
  match dryWeight, fluidRemoval with
  | some dw, some fr => if 0 < dw then decide ((0.05 : ℚ) < fr / dw) else false
  | _, _ => false

/-- C1: the fluid-removal check warns exactly when both inputs parse, the
dry weight is strictly positive, and fluidRemoval / dryWeight is strictly
greater than 0.05; in particular an absent or unparseable input, a
non-positive dry weight, or a ratio of exactly 0.05 produces no warning. -/
theorem fluid_removal_check (dryWeight fluidRemoval : Option ℚ) :
    showFluidWarning dryWeight fluidRemoval = true ↔
      ∃ dw fr, dryWeight = some dw ∧ fluidRemoval = some fr ∧ 0 < dw ∧
        (0.05 : ℚ) < fr / dw := by
  cases dryWeight with
  | none => simp [showFluidWarning]
  | some dw =>
    cases fluidRemoval with
    | none => simp [showFluidWarning]
    | some fr =>
      by_cases h : 0 < dw
      · simp [showFluidWarning, h]
      · simp [showFluidWarning, h]

/-- Kind of a blood-pressure status (`type` field in `bpStatus`). -/
inductive BpType
  | danger
  | warning
deriving DecidableEq

/-- Result record of the blood-pressure check (`bpStatus`). -/
structure BpResult where
  type : BpType
  message : String
  detail : String
deriving DecidableEq

/-- Truthiness-and-threshold test `patientAge && patientAge >= 65` of
`DataEntry.tsx`: the age is present, non-zero (JS truthiness) and at
least 65. -/
def isElderly : Option ℕ → Bool
  | none => false
  | some a => a != 0 && decide (65 ≤ a)

/-- Systolic limit selected in `bpStatus`: 150 for elderly patients,
140 otherwise. -/
def bpSysLimit (patientAge : Option ℕ) : ℤ :=
  if isElderly patientAge then 150 else 140

/-- Diastolic limit selected in `bpStatus`: 90 for all ages. -/
def bpDiaLimit (_patientAge : Option ℕ) : ℤ := 90

/-- Detail text of the hypertension warning in `bpStatus`: the ternary
on `patientAge && patientAge >= 65` picks the age-specific wording. -/
def hyperDetail (patientAge : Option ℕ) (sysLimit diaLimit : ℤ) : String :=
  match patientAge with
  | some a =>
      if a != 0 && decide (65 ≤ a) then
        "针对" ++ toString a ++ "岁患者，收缩压>" ++ toString sysLimit ++
          "或舒张压>" ++ toString diaLimit ++ "属于偏高范围。"
      else
        "收缩压>" ++ toString sysLimit ++ "或舒张压>" ++ toString diaLimit ++
          "属于偏高范围，请注意控制盐分和水分摄入。"
  | none =>
      "收缩压>" ++ toString sysLimit ++ "或舒张压>" ++ toString diaLimit ++
        "属于偏高范围，请注意控制盐分和水分摄入。"

/-- Blood-pressure check of `DataEntry.tsx` (`bpStatus`): `none` inputs
model unparseable systolic/diastolic; hypotension (danger) is checked
first, then hypertension (warning) against age-dependent limits. -/
def bpStatus (systolic diastolic : Option ℤ) (patientAge : Option ℕ) :
    Option BpResult :=
  match systolic, diastolic with
  | some sys, some dia =>
      if sys < 90 ∨ dia < 60 then
        some { type := BpType.danger
               message := "血压偏低 (低血压)"
               detail := "透析中或透析后低血压风险极高，请立即停止脱水并咨询医生。" }
      else
        let sysLimit := bpSysLimit patientAge
        let diaLimit := bpDiaLimit patientAge
        if sysLimit < sys ∨ diaLimit < dia then
          some { type := BpType.warning
                 message := "血压偏高"
                 detail := hyperDetail patientAge sysLimit diaLimit }
        else none
  | _, _ => none

/-- C2: for parseable pressures, if systolic < 90 or diastolic < 60 the
result is the fixed kind="danger" hypotension status for every age, and
no hypertension warning is ever produced in that case: the branches are
mutually exclusive with hypotension evaluated first. -/
theorem bp_hypotension_priority (sys dia : ℤ) (patientAge : Option ℕ)
    (h : sys < 90 ∨ dia < 60) :
    bpStatus (some sys) (some dia) patientAge =
      some { type := BpType.danger
             message := "血压偏低 (低血压)"
             detail := "透析中或透析后低血压风险极高，请立即停止脱水并咨询医生。" } ∧
    ∀ r, bpStatus (some sys) (some dia) patientAge = some r →
      r.type ≠ BpType.warning := by
  constructor
  · simp [bpStatus, h]
  · intro r hr
    simp [bpStatus, h] at hr
    simp [← hr]

/-- C3: when hypotension does not trigger, the limits are 150/90 for
patients aged 65 or more and 140/90 otherwise (including an absent age);
a status is produced iff a pressure strictly exceeds its limit, the
produced status has kind="warning", and unparseable input yields no
status. -/
theorem bp_hypertension_thresholds (sys dia : ℤ) (patientAge : Option ℕ)
    (h : ¬ (sys < 90 ∨ dia < 60)) :
    (∀ a, patientAge = some a → 65 ≤ a → bpSysLimit patientAge = 150) ∧
    (∀ a, patientAge = some a → a < 65 → bpSysLimit patientAge = 140) ∧
    (patientAge = none → bpSysLimit patientAge = 140) ∧
    bpDiaLimit patientAge = 90 ∧
    ((bpStatus (some sys) (some dia) patientAge).isSome = true ↔
      bpSysLimit patientAge < sys ∨ bpDiaLimit patientAge < dia) ∧
    (∀ r, bpStatus (some sys) (some dia) patientAge = some r →
      r.type = BpType.warning) ∧
    (∀ x, bpStatus none x patientAge = none) ∧
    (∀ x, bpStatus x none patientAge = none) := by
  refine ⟨?_, ?_, ?_, rfl, ?_, ?_, ?_, ?_⟩
  · rintro a rfl ha
    have h0 : a ≠ 0 := by omega
    simp [bpSysLimit, isElderly, ha, h0]
  · rintro a rfl ha
    simp [bpSysLimit, isElderly]
    omega
  · rintro rfl
    simp [bpSysLimit, isElderly]
  · by_cases hw : bpSysLimit patientAge < sys ∨ bpDiaLimit patientAge < dia
    · simp [bpStatus, h, hw]
    · simp [bpStatus, h, hw]
  · intro r hr
    by_cases hw : bpSysLimit patientAge < sys ∨ bpDiaLimit patientAge < dia
    · simp [bpStatus, h, hw] at hr
      simp [← hr]
    · simp [bpStatus, h, hw] at hr
  · intro x
    cases x <;> simp [bpStatus]
  · intro x
    cases x <;> simp [bpStatus]

/-- Witness for C2 at systolic 85, diastolic 95, age 40: the danger status
is returned even though the diastolic value exceeds the high limit. -/
theorem bp_hypotension_priority_witness :
    bpStatus (some 85) (some 95) (some 40) =
      some { type := BpType.danger
             message := "血压偏低 (低血压)"
             detail := "透析中或透析后低血压风险极高，请立即停止脱水并咨询医生。" } :=
  (bp_hypotension_priority 85 95 (some 40) (by decide)).1

/-- Witness for C3 at systolic 151, diastolic 85, age 70: the elderly
limit 150 is exceeded, so a status is produced. -/
theorem bp_hypertension_thresholds_witness :
    (bpStatus (some 151) (some 85) (some 70)).isSome = true :=
  ((bp_hypertension_thresholds 151 85 (some 70) (by decide)).2.2.2.2.1).mpr
    (by decide)

/-- C4 counterexample: for a known age of 33 with systolic 145 and
diastolic 80, the hypertension branch produces a warning whose message
and detail never mention the age 33. -/
theorem bp_age_mention_counterexample :
    ∃ r, bpStatus (some 145) (some 80) (some 33) = some r ∧
      r.type = BpType.warning ∧
      ¬ mentions (toString (33 : ℕ)) r.message ∧
      ¬ mentions (toString (33 : ℕ)) r.detail := by
  refine ⟨{ type := BpType.warning
            message := "血压偏高"
            detail := hyperDetail (some 33) 140 90 },
    by decide, rfl, by decide, by decide⟩

/-- C4 (amended): whenever the hypertension branch produces a warning,
the detail text cites both the systolic and the diastolic limit that
were used; it mentions the patient's age exactly when the age is known
and at least 65: in that case the detail is the age-specific wording
containing the age, while for a known age below 65 and for an absent
age the detail is the fixed generic wording, which carries no reference
to the age. -/
theorem bp_warning_detail (sys dia : ℤ) (patientAge : Option ℕ) (r : BpResult)
    (h : bpStatus (some sys) (some dia) patientAge = some r)
    (hw : r.type = BpType.warning) :
    mentions (toString (bpSysLimit patientAge)) r.detail ∧
    mentions (toString (bpDiaLimit patientAge)) r.detail ∧
    (∀ a, patientAge = some a → 65 ≤ a →
      r.detail = "针对" ++ toString a ++ "岁患者，收缩压>" ++
        toString (bpSysLimit patientAge) ++ "或舒张压>" ++
        toString (bpDiaLimit patientAge) ++ "属于偏高范围。" ∧
      mentions (toString a) r.detail) ∧
    (∀ a, patientAge = some a → a < 65 →
      r.detail = "收缩压>" ++ toString (bpSysLimit patientAge) ++ "或舒张压>" ++
        toString (bpDiaLimit patientAge) ++
        "属于偏高范围，请注意控制盐分和水分摄入。") ∧
    (patientAge = none →
      r.detail = "收缩压>" ++ toString (bpSysLimit patientAge) ++ "或舒张压>" ++
        toString (bpDiaLimit patientAge) ++
        "属于偏高范围，请注意控制盐分和水分摄入。") := by
  by_cases hlow : sys < 90 ∨ dia < 60
  · simp [bpStatus, hlow] at h
    rw [← h] at hw
    simp at hw
  · by_cases hhigh : bpSysLimit patientAge < sys ∨ bpDiaLimit patientAge < dia
    · simp [bpStatus, hlow, hhigh] at h
      have hdetail : r.detail =
          hyperDetail patientAge (bpSysLimit patientAge) (bpDiaLimit patientAge) := by
        rw [← h]
      rw [hdetail]
      cases patientAge with
      | none =>
        refine ⟨by decide, by decide, ?_, ?_, ?_⟩
        · intro a ha
          exact absurd ha (by simp)
        · intro a ha
          exact absurd ha (by simp)
        · intro _
          rfl
      | some a =>
        by_cases hold : a != 0 && decide (65 ≤ a)
        · have hsl : bpSysLimit (some a) = 150 := by
            simp [bpSysLimit, isElderly, hold]
          have hdl : bpDiaLimit (some a) = 90 := rfl
          rw [hsl, hdl]
          have hdet : hyperDetail (some a) 150 90 =
              "针对" ++ toString a ++ "岁患者，收缩压>" ++ toString (150 : ℤ) ++
                "或舒张压>" ++ toString (90 : ℤ) ++ "属于偏高范围。" := by
            simp [hyperDetail, hold]
          rw [hdet]
          have h65a : 65 ≤ a := by
            rcases (by simpa using hold : a ≠ 0 ∧ 65 ≤ a) with ⟨-, h65a⟩
            exact h65a
          refine ⟨?_, ?_, ?_, ?_, ?_⟩
          · exact ⟨("针对" ++ toString a ++ "岁患者，收缩压>").data,
              ("或舒张压>" ++ toString (90 : ℤ) ++ "属于偏高范围。").data, by simp⟩
          · exact ⟨("针对" ++ toString a ++ "岁患者，收缩压>" ++ toString (150 : ℤ) ++
                "或舒张压>").data, ("属于偏高范围。").data, by simp⟩
          · intro b hb _
            have hba : b = a := (Option.some.inj hb).symm
            rw [hba]
            refine ⟨rfl, ?_⟩
            exact ⟨("针对").data,
              ("岁患者，收缩压>" ++ toString (150 : ℤ) ++ "或舒张压>" ++
                toString (90 : ℤ) ++ "属于偏高范围。").data, by simp⟩
          · intro b hb hblt
            have hba : b = a := (Option.some.inj hb).symm
            exfalso
            rw [hba] at hblt
            omega
          · intro hnone
            exact absurd hnone (by simp)
        · have hsl : bpSysLimit (some a) = 140 := by
            simp only [bpSysLimit, isElderly]
            rw [if_neg (by simpa using hold)]
          have hdl : bpDiaLimit (some a) = 90 := rfl
          rw [hsl, hdl]
          have hdet : hyperDetail (some a) 140 90 =
              "收缩压>" ++ toString (140 : ℤ) ++ "或舒张压>" ++ toString (90 : ℤ) ++
                "属于偏高范围，请注意控制盐分和水分摄入。" := by
            simp [hyperDetail, hold]
          rw [hdet]
          refine ⟨by decide, by decide, ?_, ?_, ?_⟩
          · intro b hb h65
            have hba : b = a := (Option.some.inj hb).symm
            exfalso
            apply hold
            rw [hba] at h65
            simp
            omega
          · intro b hb hblt
            rfl
          · intro hnone
            exact absurd hnone (by simp)
    · simp [bpStatus, hlow, hhigh] at h

/-- Witness for the amended C4: at age 70 with systolic 151 the warning
detail mentions the limit "150" and the age "70"; at age 40 with
systolic 145 the warning detail is exactly the generic wording with the
limits 140 and 90 and no age reference. -/
theorem bp_warning_detail_witness :
    mentions "150" (hyperDetail (some 70) 150 90) ∧
    mentions "70" (hyperDetail (some 70) 150 90) ∧
    hyperDetail (some 40) 140 90 =
      "收缩压>140或舒张压>90属于偏高范围，请注意控制盐分和水分摄入。" := by
  have h70 := bp_warning_detail 151 85 (some 70)
    { type := BpType.warning
      message := "血压偏高"
      detail := hyperDetail (some 70) 150 90 }
    (by decide) rfl
  have h40 := bp_warning_detail 145 80 (some 40)
    { type := BpType.warning
      message := "血压偏高"
      detail := hyperDetail (some 40) 140 90 }
    (by decide) rfl
  refine ⟨h70.1, (h70.2.2.1 70 rfl (by decide)).2, ?_⟩
  exact (h40.2.2.2.1 40 rfl (by decide)).trans (by decide)

/-- Calendar date at day precision (year, month, day as read from a
YYYY-MM-DD form value). -/
structure SimpleDate where
  year : ℤ
  month : ℤ
  day : ℤ
deriving DecidableEq

/-- Strict day-level order on dates: `dateBefore a b` states that `a`
falls on an earlier day than `b`. The source compares a midnight start
date against the current instant with `start > now`; at day precision
this is exactly `dateBefore now start`. -/
def dateBefore (a b : SimpleDate) : Bool :=
  decide (a.year < b.year) ||
    (a.year == b.year &&
      (decide (a.month < b.month) ||
        (a.month == b.month && decide (a.day < b.day))))

/-- Result of the duration calculator: the integer month count and the
human-readable text shown to the user. -/
structure DialysisStats where
  totalMonths : ℤ
  text : String
deriving DecidableEq

/-- Dialysis-duration calculator of the profile form (`dialysisStats`):
`none` start models an empty start-date field; a start after the
reference date yields the fixed invalid-input text; otherwise the whole
calendar months between the two dates, clamped at zero, with a
year/month breakdown appended when at least one full year elapsed. -/
def dialysisStats (startDate : Option SimpleDate) (now : SimpleDate) :
    Option DialysisStats :=
  match startDate with
  | none => none
  | some start =>
      if dateBefore now start then
        some { totalMonths := 0, text := "日期不能晚于今天" }
      else
        let yearsDiff := now.year - start.year
        let monthsDiff := now.month - start.month
        let raw := yearsDiff * 12 + monthsDiff
        let totalMonths := if raw < 0 then 0 else raw
        let displayYears := totalMonths / 12
        let displayMonths := totalMonths % 12
        let text := toString totalMonths ++ " 个月" ++
          (if 0 < displayYears then
            " (约 " ++ toString displayYears ++ " 年 " ++
              toString displayMonths ++ " 个月)"
          else "")
        some { totalMonths := totalMonths, text := text }

/-- C5: for a start date not after the reference date the month count is
(nowYear - startYear) * 12 + (nowMonth - startMonth) clamped at zero,
ignoring the day of month, and the displayed text carries the breakdown
into floor(totalMonths / 12) years and totalMonths mod 12 months; a
start date strictly after the reference date yields the fixed
invalid-input text with a non-negative month count instead of a negative
duration. -/
theorem dialysis_duration (start now : SimpleDate) :
    (dateBefore now start = false →
      (dialysisStats (some start) now).isSome = true ∧
      ∀ r, dialysisStats (some start) now = some r →
        r.totalMonths =
          max 0 ((now.year - start.year) * 12 + (now.month - start.month)) ∧
        0 ≤ r.totalMonths ∧
        r.text = toString r.totalMonths ++ " 个月" ++
          (if 0 < r.totalMonths / 12 then
            " (约 " ++ toString (r.totalMonths / 12) ++ " 年 " ++
              toString (r.totalMonths % 12) ++ " 个月)"
          else "")) ∧
    (dateBefore now start = true →
      dialysisStats (some start) now =
        some { totalMonths := 0, text := "日期不能晚于今天" }) := by
  constructor
  · intro hle
    constructor
    · simp [dialysisStats, hle]
    · intro r hr
      simp only [dialysisStats, hle, Bool.false_eq_true, if_false,
        Option.some.injEq] at hr
      rw [← hr]
      refine ⟨?_, ?_, rfl⟩
      · simp only []
        split <;> omega
      · simp only []
        split <;> omega
  · intro hgt
    simp [dialysisStats, hgt]

/-- Witness for C5: start 2023-01-15 with reference 2024-03-01 yields 14
months (the day of month is ignored), and a start of 2025-01-01 against
the same reference yields the invalid-input text. -/
theorem dialysis_duration_witness :
    ((dialysisStats (some ⟨2023, 1, 15⟩) ⟨2024, 3, 1⟩).isSome = true ∧
      ∀ r, dialysisStats (some ⟨2023, 1, 15⟩) ⟨2024, 3, 1⟩ = some r →
        r.totalMonths = max 0 (((2024 : ℤ) - 2023) * 12 + ((3 : ℤ) - 1)) ∧
        0 ≤ r.totalMonths ∧
        r.text = toString r.totalMonths ++ " 个月" ++
          (if 0 < r.totalMonths / 12 then
            " (约 " ++ toString (r.totalMonths / 12) ++ " 年 " ++
              toString (r.totalMonths % 12) ++ " 个月)"
          else "")) ∧
    dialysisStats (some ⟨2025, 1, 1⟩) ⟨2024, 3, 1⟩ =
      some { totalMonths := 0, text := "日期不能晚于今天" } :=
  ⟨(dialysis_duration ⟨2023, 1, 15⟩ ⟨2024, 3, 1⟩).1 (by decide),
    (dialysis_duration ⟨2025, 1, 1⟩ ⟨2024, 3, 1⟩).2 (by decide)⟩

/-- Medication record (`types.ts`): optional reminder time (HH:MM) and
the (lastTakenDate, takenToday) pair encoding the taken-today fact. -/
structure Medication where
  id : String
  name : String
  dosage : String
  frequency : String
  reminderTime : Option String
  takenToday : Bool
  lastTakenDate : Option String
deriving DecidableEq

/-- Runtime permission state of the Notification API. -/
inductive NotifPermission
  | default
  | granted
  | denied
deriving DecidableEq

/-- A constructed browser notification (title and body; presentation
options such as the icon are not modelled). -/
structure Notif where
  title : String
  body : String
deriving DecidableEq

/-- Environment of one scheduler tick: availability of the Notification
API, the runtime permission, the formatted current wall-clock minute and
today's date (all derived from the browser in the source). -/
structure SchedEnv where
  hasNotificationApi : Bool
  permission : NotifPermission
  currentMinute : String
  todayDate : String
deriving DecidableEq

/-- Mutable state of the scheduler: the last-checked-minute marker
(`lastCheckMinute` ref in `App.tsx`, initially the empty string). -/
structure SchedState where
  lastCheckMinute : String
deriving DecidableEq

/-- The notification constructed for a due medication in
`checkReminders`: fixed title, body carrying the name and dosage. -/
def reminderNotif (m : Medication) : Notif :=
  { title := "服药提醒"
    body := "时间到了！请服用：" ++ m.name ++ " " ++ m.dosage }

/-- The per-medication loop body of `checkReminders`: for each
medication whose reminder time equals the current minute and which is
not already taken today (lastTakenDate = today and takenToday), one
notification is emitted. -/
def medNotifs (currentMinute todayDate : String) :
    List Medication → List Notif
  | [] => []
  | m :: ms =>
      let rest := medNotifs currentMinute todayDate ms
      if m.reminderTime == some currentMinute then
        if m.lastTakenDate == some todayDate && m.takenToday then rest
        else reminderNotif m :: rest
      else rest

/-- One tick of the reminder scheduler (`checkReminders` in `App.tsx`):
returns the new scheduler state and the list of notifications created
during the tick. -/
def checkReminders (env : SchedEnv) (st : SchedState)
    (meds : List Medication) : SchedState × List Notif :=
  if !env.hasNotificationApi || env.permission != NotifPermission.granted then
    (st, [])
  else if env.currentMinute == st.lastCheckMinute then
    (st, [])
  else
    ({ lastCheckMinute := env.currentMinute },
      medNotifs env.currentMinute env.todayDate meds)

/-- C6: a tick whose current minute equals the stored last-checked
minute changes nothing and emits nothing; consequently a second tick in
the same minute (same environment) after any first tick emits no
notification, so two ticks in one minute produce at most one
notification per due medication. -/
theorem scheduler_same_minute (env : SchedEnv) (st : SchedState)
    (meds : List Medication) :
    (env.currentMinute = st.lastCheckMinute →
      checkReminders env st meds = (st, [])) ∧
    (checkReminders env (checkReminders env st meds).1 meds).2 = [] := by
  constructor
  · intro h
    simp [checkReminders, h]
  · by_cases hp : !env.hasNotificationApi ||
        env.permission != NotifPermission.granted
    · simp [checkReminders, hp]
    · by_cases hm : env.currentMinute == st.lastCheckMinute
      · simp [checkReminders, hp, hm]
      · simp [checkReminders, hp, hm]

/-- Witness for C6: a tick at minute "08:00" with marker "08:00" is a
no-op, and a second tick right after a firing tick emits nothing. -/
theorem scheduler_same_minute_witness :
    checkReminders
        { hasNotificationApi := true, permission := NotifPermission.granted
          currentMinute := "08:00", todayDate := "2024-05-02" }
        { lastCheckMinute := "08:00" }
        [{ id := "1", name := "碳酸钙", dosage := "1片", frequency := "每日一次"
           reminderTime := some "08:00", takenToday := false
           lastTakenDate := none }] =
      ({ lastCheckMinute := "08:00" }, []) ∧
    (checkReminders
        { hasNotificationApi := true, permission := NotifPermission.granted
          currentMinute := "08:00", todayDate := "2024-05-02" }
        (checkReminders
          { hasNotificationApi := true, permission := NotifPermission.granted
            currentMinute := "08:00", todayDate := "2024-05-02" }
          { lastCheckMinute := "" }
          [{ id := "1", name := "碳酸钙", dosage := "1片", frequency := "每日一次"
             reminderTime := some "08:00", takenToday := false
             lastTakenDate := none }]).1
        [{ id := "1", name := "碳酸钙", dosage := "1片", frequency := "每日一次"
           reminderTime := some "08:00", takenToday := false
           lastTakenDate := none }]).2 = [] :=
  ⟨(scheduler_same_minute
      { hasNotificationApi := true, permission := NotifPermission.granted
        currentMinute := "08:00", todayDate := "2024-05-02" }
      { lastCheckMinute := "08:00" }
      [{ id := "1", name := "碳酸钙", dosage := "1片", frequency := "每日一次"
         reminderTime := some "08:00", takenToday := false
         lastTakenDate := none }]).1 rfl,
   (scheduler_same_minute
      { hasNotificationApi := true, permission := NotifPermission.granted
        currentMinute := "08:00", todayDate := "2024-05-02" }
      { lastCheckMinute := "" }
      [{ id := "1", name := "碳酸钙", dosage := "1片", frequency := "每日一次"
         reminderTime := some "08:00", takenToday := false
         lastTakenDate := none }]).2⟩

/-- Unfolding of the per-medication loop: the notifications of a tick
are exactly the reminder notifications of the medications due at the
current minute and not already taken today. -/
theorem medNotifs_eq_filter (cm td : String) (meds : List Medication) :
    medNotifs cm td meds =
      (meds.filter fun m =>
        m.reminderTime == some cm &&
          !(m.lastTakenDate == some td && m.takenToday)).map
        reminderNotif := by
  induction meds with
  | nil => rfl
  | cons m ms ih =>
    simp only [medNotifs, List.filter_cons]
    cases h1 : (m.reminderTime == some cm) with
    | false => simp [h1, ih]
    | true =>
      cases h2 : (m.lastTakenDate == some td) with
      | false => simp [h1, h2, ih]
      | true =>
        cases h3 : m.takenToday with
        | false => simp [h1, h2, h3, ih]
        | true => simp [h1, h2, h3, ih]

/-- C7: on a tick with permission granted (and the API available) whose
minute differs from the marker, the marker is updated to the current
minute and exactly the due-and-not-taken-today medications get one
notification each carrying their name and dosage; a medication with a
stale takenToday from a prior day (lastTakenDate differing from today)
counts as not taken. -/
theorem scheduler_firing (env : SchedEnv) (st : SchedState)
    (meds : List Medication)
    (hapi : env.hasNotificationApi = true)
    (hp : env.permission = NotifPermission.granted)
    (hm : env.currentMinute ≠ st.lastCheckMinute) :
    (checkReminders env st meds).1.lastCheckMinute = env.currentMinute ∧
    (checkReminders env st meds).2 =
      (meds.filter fun m =>
        m.reminderTime == some env.currentMinute &&
          !(m.lastTakenDate == some env.todayDate && m.takenToday)).map
        reminderNotif := by
  have hgate : (!env.hasNotificationApi ||
      env.permission != NotifPermission.granted) = false := by
    simp [hapi, hp]
  have hmin : (env.currentMinute == st.lastCheckMinute) = false := by
    simp [hm]
  constructor
  · simp [checkReminders, hgate, hmin]
  · simp only [checkReminders, hgate, hmin, Bool.false_eq_true, if_false]
    exact medNotifs_eq_filter env.currentMinute env.todayDate meds

/-- Witness for C7 at minute "08:00": of three medications, only the due
one not yet taken today fires; the due one already taken today and the
one due at another time do not. A stale takenToday from 2024-05-01
still fires on 2024-05-02. -/
theorem scheduler_firing_witness :
    (checkReminders
        { hasNotificationApi := true, permission := NotifPermission.granted
          currentMinute := "08:00", todayDate := "2024-05-02" }
        { lastCheckMinute := "" }
        [{ id := "1", name := "碳酸钙", dosage := "1片", frequency := "每日一次"
           reminderTime := some "08:00", takenToday := true
           lastTakenDate := some "2024-05-01" },
         { id := "2", name := "降压药", dosage := "2片", frequency := "每日一次"
           reminderTime := some "08:00", takenToday := true
           lastTakenDate := some "2024-05-02" },
         { id := "3", name := "铁剂", dosage := "1片", frequency := "每日一次"
           reminderTime := some "21:00", takenToday := false
           lastTakenDate := none }]).2 =
      [reminderNotif
        { id := "1", name := "碳酸钙", dosage := "1片", frequency := "每日一次"
          reminderTime := some "08:00", takenToday := true
          lastTakenDate := some "2024-05-01" }] := by
  rw [(scheduler_firing
    { hasNotificationApi := true, permission := NotifPermission.granted
      currentMinute := "08:00", todayDate := "2024-05-02" }
    { lastCheckMinute := "" }
    [{ id := "1", name := "碳酸钙", dosage := "1片", frequency := "每日一次"
       reminderTime := some "08:00", takenToday := true
       lastTakenDate := some "2024-05-01" },
     { id := "2", name := "降压药", dosage := "2片", frequency := "每日一次"
       reminderTime := some "08:00", takenToday := true
       lastTakenDate := some "2024-05-02" },
     { id := "3", name := "铁剂", dosage := "1片", frequency := "每日一次"
       reminderTime := some "21:00", takenToday := false
       lastTakenDate := none }] rfl rfl (by decide)).2]
  decide

/-- Permission-request confirmation of `Medications.tsx`
(`requestPermission`): after the browser resolves the request with a
permission value, the component stores that value and creates a
confirmation notification only when the value is granted. -/
def requestPermissionStep (resolved : NotifPermission) :
    NotifPermission × List Notif :=
  (resolved,
    if resolved == NotifPermission.granted then
      [{ title := "透析伴侣", body := "服药提醒已开启" }]
    else [])

/-- C8: no notification is ever created while permission is not granted:
a scheduler tick that emits any notification ran with the Notification
API available and permission granted, and the permission-request
confirmation notification is only created when the request resolved to
granted. -/
theorem notification_permission_gate (env : SchedEnv) (st : SchedState)
    (meds : List Medication) :
    ((checkReminders env st meds).2 ≠ [] →
      env.permission = NotifPermission.granted ∧
      env.hasNotificationApi = true) ∧
    (∀ p, (requestPermissionStep p).2 ≠ [] → p = NotifPermission.granted) := by
  constructor
  · intro hne
    by_cases hapi : env.hasNotificationApi = true
    · by_cases hp : env.permission = NotifPermission.granted
      · exact ⟨hp, hapi⟩
      · exfalso
        apply hne
        have : (!env.hasNotificationApi ||
            env.permission != NotifPermission.granted) = true := by
          simp [hp]
        simp [checkReminders, this]
    · exfalso
      apply hne
      have : (!env.hasNotificationApi ||
          env.permission != NotifPermission.granted) = true := by
        simp [Bool.not_eq_true] at hapi
        simp [hapi]
      simp [checkReminders, this]
  · intro p hp
    cases p with
    | granted => rfl
    | default => simp [requestPermissionStep] at hp
    | denied => simp [requestPermissionStep] at hp

/-- Witness for C8: a tick with permission granted that fires a due
medication confirms the gate's premise is satisfiable, and the
permission-request branch at granted produces the confirmation. -/
theorem notification_permission_gate_witness :
    ({ hasNotificationApi := true, permission := NotifPermission.granted
       currentMinute := "08:00", todayDate := "2024-05-02" } :
        SchedEnv).permission = NotifPermission.granted ∧
    NotifPermission.granted = NotifPermission.granted := by
  constructor
  · exact ((notification_permission_gate
      { hasNotificationApi := true, permission := NotifPermission.granted
        currentMinute := "08:00", todayDate := "2024-05-02" }
      { lastCheckMinute := "" }
      [{ id := "1", name := "碳酸钙", dosage := "1片", frequency := "每日一次"
         reminderTime := some "08:00", takenToday := false
         lastTakenDate := none }]).1 (by decide)).1
  · exact (notification_permission_gate
      { hasNotificationApi := true, permission := NotifPermission.granted
        currentMinute := "08:00", todayDate := "2024-05-02" }
      { lastCheckMinute := "" } []).2 NotifPermission.granted (by decide)

/-- Toggle-taken mutation of `App.tsx` (`toggleMedTaken`): map over the
medication list; for the matching id, flip the taken state for the given
date, setting the date when taking and keeping it when un-taking. -/
def toggleMedTaken (id date : String) (meds : List Medication) :
    List Medication :=
  meds.map fun m =>
    if m.id == id then
      let isTakenToday := m.lastTakenDate == some date && m.takenToday
      { m with takenToday := !isTakenToday
               lastTakenDate := if !isTakenToday then some date
                 else m.lastTakenDate }
    else m

/-- C9: toggling preserves the length of the list; the medication at a
position with a different id is unchanged; a matching medication that is
not taken on the given date (the pair lastTakenDate = date and
takenToday does not hold) gets takenToday = true and lastTakenDate =
date with every other field unchanged; a matching medication that is
taken on the date gets takenToday = false with lastTakenDate and every
other field unchanged. -/
theorem toggle_med_taken (id date : String) (meds : List Medication)
    (i : ℕ) (hi : i < meds.length) :
    (toggleMedTaken id date meds).length = meds.length ∧
    ∀ hj : i < (toggleMedTaken id date meds).length,
      ((meds.get ⟨i, hi⟩).id ≠ id →
        (toggleMedTaken id date meds).get ⟨i, hj⟩ = meds.get ⟨i, hi⟩) ∧
      ((meds.get ⟨i, hi⟩).id = id →
        ¬ ((meds.get ⟨i, hi⟩).lastTakenDate = some date ∧
            (meds.get ⟨i, hi⟩).takenToday = true) →
        (toggleMedTaken id date meds).get ⟨i, hj⟩ =
          { meds.get ⟨i, hi⟩ with takenToday := true
                                  lastTakenDate := some date }) ∧
      ((meds.get ⟨i, hi⟩).id = id →
        (meds.get ⟨i, hi⟩).lastTakenDate = some date ∧
          (meds.get ⟨i, hi⟩).takenToday = true →
        (toggleMedTaken id date meds).get ⟨i, hj⟩ =
          { meds.get ⟨i, hi⟩ with takenToday := false }) := by
  constructor
  · simp [toggleMedTaken]
  · intro hj
    have hget : (toggleMedTaken id date meds).get ⟨i, hj⟩ =
        (fun m =>
          if m.id == id then
            let isTakenToday := m.lastTakenDate == some date && m.takenToday
            { m with takenToday := !isTakenToday
                     lastTakenDate := if !isTakenToday then some date
                       else m.lastTakenDate }
          else m) (meds.get ⟨i, hi⟩) := by
      simp [toggleMedTaken]
    rw [hget]
    set m := meds.get ⟨i, hi⟩ with hm
    refine ⟨?_, ?_, ?_⟩
    · intro hne
      simp only []
      rw [if_neg (by simpa using hne)]
    · intro heq hnot
      simp only []
      rw [if_pos (by simpa using heq)]
      have hfalse : (m.lastTakenDate == some date && m.takenToday) = false := by
        cases hd : (m.lastTakenDate == some date) with
        | false => simp [hd]
        | true =>
          cases ht : m.takenToday with
          | false => simp [hd, ht]
          | true =>
            exfalso
            exact hnot ⟨by simpa using hd, ht⟩
      simp [hfalse]
    · intro heq htaken
      simp only []
      rw [if_pos (by simpa using heq)]
      have htrue : (m.lastTakenDate == some date && m.takenToday) = true := by
        simp [htaken.1, htaken.2]
      simp [htrue]

/-- Witness for C9 on a two-element list: the stale medication (taken on
2024-05-01) toggled on 2024-05-02 becomes taken today with the new date,
and the medication with another id is untouched. -/
theorem toggle_med_taken_witness :
    (toggleMedTaken "1" "2024-05-02"
      [{ id := "1", name := "碳酸钙", dosage := "1片", frequency := "每日一次"
         reminderTime := some "08:00", takenToday := true
         lastTakenDate := some "2024-05-01" },
       { id := "2", name := "铁剂", dosage := "1片", frequency := "每日一次"
         reminderTime := none, takenToday := false
         lastTakenDate := none }]).get ⟨0, by decide⟩ =
      { id := "1", name := "碳酸钙", dosage := "1片", frequency := "每日一次"
        reminderTime := some "08:00", takenToday := true
        lastTakenDate := some "2024-05-02" } := by
  have h := ((toggle_med_taken "1" "2024-05-02"
    [{ id := "1", name := "碳酸钙", dosage := "1片", frequency := "每日一次"
       reminderTime := some "08:00", takenToday := true
       lastTakenDate := some "2024-05-01" },
     { id := "2", name := "铁剂", dosage := "1片", frequency := "每日一次"
       reminderTime := none, takenToday := false
       lastTakenDate := none }] 0 (by decide)).2 (by decide)).2.1 rfl
    (by decide)
  rw [h]
  rfl

/-- Health record (`types.ts`): one dated entry of weight, dry weight,
optional fluid removal, blood pressure and optional notes. -/
structure HealthRecord where
  id : String
  date : String
  weight : ℚ
  dryWeight : ℚ
  fluidRemoval : Option ℚ
  systolic : ℤ
  diastolic : ℤ
  notes : Option String
deriving DecidableEq

/-- AI summarize operation of `services/geminiService.ts`
(`generateHealthAnalysis`): the asynchronous call to the hosted model is
modelled by its outcome `svc`, an error (any transport/API failure,
which the source catches) or the text of the response (the empty string
mirrors a missing `response.text`). Guards for a missing API key and an
empty record list return fixed strings before the call. -/
def generateHealthAnalysis (apiKey : String) (records : List HealthRecord)
    (svc : Except Unit String) : String :=
  if apiKey == "" then "API Key 未配置，无法生成智能分析。"
  else if records.length == 0 then "尚无足够数据进行分析，请先添加记录。"
  else
    match svc with
    | Except.error _ => "生成分析时发生错误，请检查网络连接。"
    | Except.ok t => if t == "" then "无法生成分析，请稍后再试。" else t

/-- C10: the summarize operation always returns a string (the embedding
is a total function and every service failure is absorbed): with a
missing API key it returns the fixed fallback independently of the
service outcome; with an empty record list it returns the fixed no-data
string independently of the service outcome; on a service error it
returns the fixed error string; otherwise it returns the service's text,
or the fixed fallback when that text is empty. -/
theorem generate_health_analysis_fallbacks (apiKey : String)
    (records : List HealthRecord) (svc svc2 : Except Unit String) :
    (apiKey = "" →
      generateHealthAnalysis apiKey records svc =
        "API Key 未配置，无法生成智能分析。" ∧
      generateHealthAnalysis apiKey records svc =
        generateHealthAnalysis apiKey records svc2) ∧
    (apiKey ≠ "" → records = [] →
      generateHealthAnalysis apiKey records svc =
        "尚无足够数据进行分析，请先添加记录。" ∧
      generateHealthAnalysis apiKey records svc =
        generateHealthAnalysis apiKey records svc2) ∧
    (apiKey ≠ "" → records ≠ [] →
      generateHealthAnalysis apiKey records (Except.error ()) =
        "生成分析时发生错误，请检查网络连接。") ∧
    (apiKey ≠ "" → records ≠ [] → ∀ t, t ≠ "" →
      generateHealthAnalysis apiKey records (Except.ok t) = t) ∧
    (apiKey ≠ "" → records ≠ [] →
      generateHealthAnalysis apiKey records (Except.ok "") =
        "无法生成分析，请稍后再试。") := by
  refine ⟨?_, ?_, ?_, ?_, ?_⟩
  · intro hk
    constructor <;> simp [generateHealthAnalysis, hk]
  · intro hk hr
    constructor <;> simp [generateHealthAnalysis, hk, hr]
  · intro hk hr
    have hlen : (records.length == 0) = false := by
      simp [List.length_eq_zero, hr]
    simp [generateHealthAnalysis, hk, hlen]
  · intro hk hr t ht
    have hlen : (records.length == 0) = false := by
      simp [List.length_eq_zero, hr]
    simp [generateHealthAnalysis, hk, hlen, ht]
  · intro hk hr
    have hlen : (records.length == 0) = false := by
      simp [List.length_eq_zero, hr]
    simp [generateHealthAnalysis, hk, hlen]

/-- Witness for C10: with a key and one record, a transport error yields
the fixed error string; with a missing key, the fallback is returned
without consulting the service outcome. -/
theorem generate_health_analysis_fallbacks_witness :
    generateHealthAnalysis "k"
        [{ id := "1", date := "2024-05-01", weight := 62, dryWeight := 60
           fluidRemoval := some 2, systolic := 120, diastolic := 80
           notes := none }]
        (Except.error ()) = "生成分析时发生错误，请检查网络连接。" ∧
    generateHealthAnalysis "" [] (Except.error ()) =
      generateHealthAnalysis "" [] (Except.ok "text") :=
  ⟨(generate_health_analysis_fallbacks "k"
      [{ id := "1", date := "2024-05-01", weight := 62, dryWeight := 60
         fluidRemoval := some 2, systolic := 120, diastolic := 80
         notes := none }]
      (Except.error ()) (Except.error ())).2.2.1 (by decide) (by decide),
   ((generate_health_analysis_fallbacks "" [] (Except.error ())
      (Except.ok "text")).1 rfl).2⟩

end DialysisApp
